import Mathlib

/-!
Formal model of the experiment orchestration system consisting of
`runner.py` (class `ExperimentRunner` plus `main`) and `watchdog.py`.

The code is shallowly embedded: subprocess results, filesystem contents and
the clock are supplied as explicit environment values, and every observable
side effect (console output, log appends, file writes, process spawns,
sleeps) is recorded in an explicit event trace.  Times are modelled as
rational epoch seconds.
-/

namespace ExperimentModel

/-- The persisted status document `status.json`.  Every field is optional
because readers access keys through `dict.get` with defaults; a
`sessionId` of `none` covers both an absent key and a JSON `null`, which
all readers of the document treat identically. -/
structure StatusDoc where
  iteration : Option Int
  timestamp : Option ℚ
  complete : Option Bool
  sessionId : Option String
deriving Repr, DecidableEq

/-- Outcome of reading and JSON-parsing a file from disk. -/
inductive FileRead (α : Type)
  | absent
  | malformed
  | ok (a : α)
deriving Repr, DecidableEq

/-- Messages produced by `watchdog.check_experiment`; each constructor
carries the data interpolated into the corresponding Python format
string. -/
inductive WatchMsg
  | noStatusFile
  | runningFor (hours : ℚ)
  | exceededIterations
  | noProgressFor (hours : ℚ)
  | statusLine (iteration : Int) (hours : ℚ)
deriving Repr, DecidableEq

/-- `watchdog.check_experiment`: decides whether the experiment should be
stopped, given `status.json` as read from disk (absence is checked before
the parse; a present but unparseable document makes the unguarded
`json.load` raise, modelled as `none`), the current time `now` in epoch
seconds, and the hour budget `maxHours` (the caller passes the default
24). -/
def checkExperiment (status : FileRead StatusDoc) (now : ℚ) (maxHours : ℚ) :
    Option (Bool × WatchMsg) :=
  match status with
  | .absent => some (false, .noStatusFile)
  | .malformed => none
  | .ok doc =>
    let startTime := doc.timestamp.getD now
    let hoursElapsed := (now - startTime) / 3600
    if hoursElapsed > maxHours then
      some (true, .runningFor hoursElapsed)
    else
      let iteration := doc.iteration.getD 0
      if iteration > 20 then
        some (true, .exceededIterations)
      else
        let lastUpdate := doc.timestamp.getD now
        let hoursSinceUpdate := (now - lastUpdate) / 3600
        if hoursSinceUpdate > 2 then
          some (true, .noProgressFor hoursSinceUpdate)
        else
          some (false, .statusLine iteration hoursElapsed)

/-- Observable actions of the watchdog script.  `printTraceback` is the
interpreter writing an uncaught-exception traceback to standard error. -/
inductive WatchAct
  | printUsage
  | printStatus (m : WatchMsg)
  | printCreatingReport
  | printWillStop
  | writeReport (reason : WatchMsg)
  | printTraceback
deriving Repr, DecidableEq

/-- Result of one watchdog invocation: the ordered console/file actions and
the process exit code. -/
structure WatchdogResult where
  acts : List WatchAct
  exitCode : Nat
deriving Repr, DecidableEq

/-- The `__main__` block of `watchdog.py`: with no directory argument it
prints usage and exits 1; otherwise it runs `check_experiment` — whose
parse error on a corrupt status document propagates uncaught, so the
interpreter prints a traceback and exits 1 with no status line — and
otherwise prints the status line and, when the experiment should stop,
writes `REPORT.md` naming the triggering reason, exiting 0. -/
def watchdogMain (argvHasDir : Bool) (status : FileRead StatusDoc) (now : ℚ) :
    WatchdogResult :=
  if argvHasDir then
    match checkExperiment status now 24 with
    | none => { acts := [.printTraceback], exitCode := 1 }
    | some res =>
      if res.1 then
        { acts := [.printStatus res.2, .printCreatingReport,
                   .writeReport res.2, .printWillStop],
          exitCode := 0 }
      else
        { acts := [.printStatus res.2], exitCode := 0 }
  else
    { acts := [.printUsage], exitCode := 1 }

/-- Constructor arguments of `ExperimentRunner` (experiment directory and
CLI options). -/
structure Config where
  experimentDir : String
  maxIterations : Int
  allowUv : Bool
  allowPip : Bool
deriving Repr, DecidableEq

/-- The runner's in-memory state: the iteration counter, the held session
identifier (`self.session_id`), the dynamically-set `gpu_info` attribute
(`none` models the attribute being absent), and the current on-disk
contents of `status.json`. -/
structure RunnerState where
  iteration : Int
  sessionId : Option String
  gpuInfo : Option String
  statusFile : FileRead StatusDoc
deriving Repr, DecidableEq

/-- The prompts built by the runner; constructors carry exactly the data
interpolated into the corresponding Python f-strings. -/
inductive PromptKind
  | plan (gpuInfo : String) (allowUv allowPip : Bool)
  | iter1 (iteration : Int) (allowUv allowPip : Bool)
  | iterN (iteration : Int) (success : Bool) (error : String) (allowUv allowPip : Bool)
deriving Repr, DecidableEq

/-- One element of the assistant command line: a literal string or the
prompt text. -/
inductive Arg
  | lit (s : String)
  | promptArg (p : PromptKind)
deriving Repr, DecidableEq

/-- Log messages emitted through `self.log`; constructors carry the data
interpolated into the corresponding Python f-strings. -/
inductive LogMsg
  | resuming (sid : String)
  | runningAnalysis (iteration : Int)
  | sessionSaved (sid : Option String)
  | claudeResponse (content : String)
  | analysisCompleted (cost total turns : String)
  | parseFailed
  | claudeError (msg : String)
  | retrying
  | timedOutClaude
  | separator
  | startingIteration (iteration : Int)
  | completeReportExists
  | runningScript (script : String)
  | trainingCompleted
  | trainingFailed (code : Int)
  | trainingTimedOut
  | trainingError (msg : String)
  | creatingPlan
  | planFailed
  | startingExperiment
  | alreadyComplete
  | claudeFailedWillRetry
  | gpuAvailable (name : String)
  | noGpu
  | torchNotInstalled
  | resourceCheckFailed (msg : String)
  | finished (iteration : Int)
  | reportGenerated
  | noReport
deriving Repr, DecidableEq

/-- Observable events of the runner.  `logBoth` is a call to `self.log`,
which both prints the message and appends it to the rolling log;
`printOnly` is a bare `print` with no log-file record. -/
inductive Event
  | logBoth (m : LogMsg)
  | printOnly (s : String)
  | spawnClaude (cwd : String) (cmd : List Arg)
  | spawnTraining (script : String) (cwd : String) (stdoutFile stderrFile : String)
  | writeStatus (doc : StatusDoc)
  | writeFile (name : String)
  | sleep (secs : Int)
deriving Repr, DecidableEq

/-- Python truthiness of `self.session_id`: `None` and the empty string
are falsy. -/
def truthy : Option String → Bool
  | none => false
  | some s => decide (s ≠ "")

/-- The parsed JSON object on the assistant's standard output.  Each field
is `none` when the key is absent; `sessionId = some none` models the key
present with value `null`.  The accounting values are carried as their
rendered text since the runner only interpolates them into a log line. -/
structure ClaudeJson where
  sessionId : Option (Option String)
  result : Option String
  costUsd : Option String
  totalCost : Option String
  numTurns : Option String
deriving Repr, DecidableEq

/-- The assistant's standard output as seen by `json.loads`. -/
inductive ClaudeStdout
  | malformed (raw : String)
  | json (j : ClaudeJson)
deriving Repr, DecidableEq

/-- Outcome of one assistant subprocess invocation. -/
inductive ProcOutcome
  | exited (code : Int) (stdout : ClaudeStdout) (stderr : String)
  | timedOut
  | raised (msg : String)
deriving Repr, DecidableEq

/-- The `--allowedTools` value built in `run_claude`. -/
def allowedToolsStr (allowUv allowPip : Bool) : String :=
  "Edit,Write,WebFetch,Bash(ls:*)"
    ++ (if allowUv then ",Bash(uv:*)" else "")
    ++ (if allowPip then ",Bash(pip:*)" else "")

/-- The assistant command line built in `run_claude`: base options, then
`--resume` with the held session identifier when it is truthy, then the
prompt. -/
def buildCmd (cfg : Config) (sessionId : Option String) (prompt : PromptKind) :
    List Arg :=
  [.lit "claude", .lit "--output-format", .lit "json",
   .lit "--allowedTools", .lit (allowedToolsStr cfg.allowUv cfg.allowPip)]
  ++ (if truthy sessionId then [Arg.lit "--resume", Arg.lit (sessionId.getD "")] else [])
  ++ [.lit "-p", .promptArg prompt]

/-- The document written by `save_status`: current iteration, current
time, whether `REPORT.md` exists at write time, and the held session
identifier. -/
def saveStatusDoc (st : RunnerState) (reportNow : Bool) (now : ℚ) : StatusDoc :=
  { iteration := some st.iteration, timestamp := some now,
    complete := some reportNow, sessionId := st.sessionId }

/-- `save_status`: writes the status document and records the write. -/
def saveStatus (st : RunnerState) (reportNow : Bool) (now : ℚ) :
    RunnerState × Event :=
  let doc := saveStatusDoc st reportNow now
  ({ st with statusFile := .ok doc }, .writeStatus doc)

/-- The error text classified for retry: the first 200 characters of
standard error, or a fixed message when standard error is empty. -/
def claudeErrMsg (stderr : String) : String :=
  if stderr = "" then "Unknown error" else stderr.take 200

/-- Substring membership on character lists (the semantics of Python's
`in` on strings): the pattern occurs as a contiguous run. -/
def containsSub (pat : List Char) : List Char → Bool
  | [] => decide (pat = [])
  | c :: rest => pat.isPrefixOf (c :: rest) || containsSub pat rest

/-- The transient-failure test `"rate limit" in error_msg.lower()`. -/
def rateLimitIn (msg : String) : Bool :=
  containsSub ("rate limit").toList (msg.toList.map Char.toLower)

/-- The key named by the `KeyError` raised when the cost log line is built
from a record lacking an accounting key (keys are looked up left to
right: `cost_usd`, `total_cost`, `num_turns`). -/
def missingKeyMsg (j : ClaudeJson) : String :=
  match j.costUsd with
  | none => "cost_usd"
  | some _ =>
    match j.totalCost with
    | none => "total_cost"
    | some _ => "num_turns"

/-- `run_claude`: builds the command line (with a `--resume` directive when
a truthy session identifier is held), spawns the assistant, and handles the
outcome.  On exit 0 it parses the output; a record carrying a `session_id`
key is adopted and persisted via `save_status` before anything else; the
cost log line then raises a `KeyError` (caught by the outer handler,
returning failure) when an accounting key is missing.  On a non-zero exit
whose error text matches the rate-limit signature and fewer than 2 retries
so far, it sleeps 30 seconds and recurses with the attempt counter
incremented; otherwise it fails.  Timeouts preserve the prompt to a debug
file and fail.  `outcomes k` is the result of the invocation made at
attempt counter `k`; `reportNow` is whether `REPORT.md` exists when a save
happens inside the call; `saveTime` is the clock at such a save. -/
def runClaude (cfg : Config) (outcomes : Nat → ProcOutcome) (reportNow : Bool)
    (saveTime : ℚ) (st : RunnerState) (prompt : PromptKind) (retryCount : Nat) :
    RunnerState × List Event × Bool :=
  let cmd := buildCmd cfg st.sessionId prompt
  let evPre : List Event :=
    (if truthy st.sessionId then [Event.logBoth (.resuming (st.sessionId.getD ""))] else [])
    ++ [.logBoth (.runningAnalysis st.iteration), .spawnClaude cfg.experimentDir cmd]
  match outcomes retryCount with
  | .timedOut =>
    (st, evPre ++ [.logBoth .timedOutClaude,
      .writeFile ("logs/timeout_prompt_" ++ toString st.iteration ++ ".txt")], false)
  | .raised msg =>
    (st, evPre ++ [.logBoth (.claudeError msg)], false)
  | .exited code stdout stderr =>
    if code = 0 then
      match stdout with
      | .malformed _ =>
        (st, evPre ++ [.logBoth .parseFailed,
          .writeFile ("logs/claude_raw_output_" ++ toString st.iteration ++ ".txt")], false)
      | .json j =>
        let sessStep : RunnerState × List Event :=
          match j.sessionId with
          | some sid =>
            let stA := { st with sessionId := sid }
            let saved := saveStatus stA reportNow saveTime
            (saved.1, [saved.2, .logBoth (.sessionSaved sid)])
          | none => (st, [])
        let st1 := sessStep.1
        let evOut : List Event :=
          (match j.result with
           | some content => [Event.logBoth (.claudeResponse content)]
           | none => [])
          ++ [.writeFile ("logs/claude_response_" ++ toString st1.iteration ++ ".json")]
        match j.costUsd, j.totalCost, j.numTurns with
        | some c, some t, some n =>
          (st1, evPre ++ sessStep.2 ++ evOut ++ [.logBoth (.analysisCompleted c t n)], true)
        | _, _, _ =>
          (st1, evPre ++ sessStep.2 ++ evOut ++ [.logBoth (.claudeError (missingKeyMsg j))], false)
    else
      let errMsg := claudeErrMsg stderr
      if h : retryCount < 2 ∧ rateLimitIn errMsg then
        let rec_ := runClaude cfg outcomes reportNow saveTime st prompt (retryCount + 1)
        (rec_.1, evPre ++ [.logBoth (.claudeError errMsg), .logBoth .retrying, .sleep 30]
          ++ rec_.2.1, rec_.2.2)
      else
        (st, evPre ++ [.logBoth (.claudeError errMsg)], false)
termination_by 3 - retryCount
decreasing_by omega

/-- Outcome of one training subprocess invocation. -/
inductive TrainOutcome
  | exited (code : Int)
  | timedOut
  | raised (msg : String)
deriving Repr, DecidableEq

/-- The fixed ordered candidate list of training scripts. -/
def trainCandidates : List String := ["temp_check.py", "train.py"]

/-- Script selection in `run_training`: the first candidate that exists. -/
def findScript (scriptExists : String → Bool) : Option String :=
  trainCandidates.find? scriptExists

/-- `run_training`: selects the first existing candidate script (failing
with a no-script message when none exists), spawns it with the experiment
directory as working directory and per-iteration stdout/stderr log files,
and returns success iff the exit code is zero, a distinct timeout message
on timeout, and the exit code (or the exception text) as the message
otherwise. -/
def runTraining (cfg : Config) (scriptExists : String → Bool)
    (outcome : TrainOutcome) (st : RunnerState) :
    (Bool × String) × List Event :=
  match findScript scriptExists with
  | none => ((false, "No training script found"), [])
  | some script =>
    let stdoutFile := "logs/iter_" ++ toString st.iteration ++ "_stdout.txt"
    let stderrFile := "logs/iter_" ++ toString st.iteration ++ "_stderr.txt"
    let evPre : List Event :=
      [.logBoth (.runningScript script),
       .spawnTraining script cfg.experimentDir stdoutFile stderrFile]
    match outcome with
    | .exited code =>
      if code = 0 then
        ((true, "Success"), evPre ++ [.logBoth .trainingCompleted])
      else
        ((false, "Exit code " ++ toString code), evPre ++ [.logBoth (.trainingFailed code)])
    | .timedOut => ((false, "Timeout"), evPre ++ [.logBoth .trainingTimedOut])
    | .raised msg => ((false, msg), evPre ++ [.logBoth (.trainingError msg)])

/-- Environment outcome of the `_check_resources` probe. -/
inductive ResourceCheck
  | gpu (name : String) (memStr : String)
  | noGpu
  | importError
  | otherError (msg : String)
deriving Repr, DecidableEq

/-- Whether a resource-check outcome makes `_check_resources` call
`sys.exit(1)`. -/
def resourceFails : ResourceCheck → Bool
  | .importError => true
  | .otherError _ => true
  | _ => false

/-- `_check_resources`: sets `gpu_info` and logs; when PyTorch cannot be
imported or the probe raises, it logs and exits the process with code 1
(modelled as returning `none`). -/
def checkResources (rc : ResourceCheck) (st : RunnerState) :
    Option RunnerState × List Event :=
  match rc with
  | .gpu name mem =>
    (some { st with gpuInfo := some ("GPU: " ++ name ++ " (" ++ mem ++ "GB)") },
     [.logBoth (.gpuAvailable name)])
  | .noGpu =>
    (some { st with gpuInfo := some "No GPU available - using CPU" },
     [.logBoth .noGpu])
  | .importError => (none, [.logBoth .torchNotInstalled])
  | .otherError m =>
    (none, [.logBoth (.resourceCheckFailed m)])

/-- How one pass of `run_iteration` ends: continue the loop (`True` in
Python), stop it (`False`), or exit the whole process (`sys.exit`). -/
inductive IterOutcome
  | cont
  | stop
  | exit (code : Nat)
deriving Repr, DecidableEq

/-- Environment of one `run_iteration` pass: filesystem and subprocess
oracles.  `reportAtCheck` is whether `REPORT.md` exists at the check at the
top of the pass, `reportDuring` its existence when a save happens inside
`run_claude`, `reportAtEnd` its existence at the end-of-pass save;
`saveTime` is the clock used for the saves of this pass. -/
structure IterEnv where
  reportAtCheck : Bool
  scriptExists : String → Bool
  trainOutcome : TrainOutcome
  resourceCheck : ResourceCheck
  claudeOutcomes : Nat → ProcOutcome
  reportDuring : Bool
  reportAtEnd : Bool
  saveTime : ℚ

/-- `run_iteration`: increments the iteration counter, stops when the
completion artifact exists, otherwise runs training, on the first
iteration probes resources when `gpu_info` is not yet set (which can exit
the process), builds the iteration prompt, invokes the assistant, logs an
assistant failure without aborting, and persists status. -/
def runIteration (env : IterEnv) (cfg : Config) (st0 : RunnerState) :
    RunnerState × List Event × IterOutcome :=
  let st := { st0 with iteration := st0.iteration + 1 }
  let evHead : List Event :=
    [.logBoth .separator, .logBoth (.startingIteration st.iteration)]
  if env.reportAtCheck then
    (st, evHead ++ [.logBoth .completeReportExists], .stop)
  else
    let tr := runTraining cfg env.scriptExists env.trainOutcome st
    let success := tr.1.1
    let error := tr.1.2
    let evT := tr.2
    if st.iteration = 1 then
      let rcStep : Option RunnerState × List Event :=
        if st.gpuInfo.isNone then checkResources env.resourceCheck st
        else (some st, [])
      match rcStep with
      | (none, evR) => (st, evHead ++ evT ++ evR, .exit 1)
      | (some st1, evR) =>
        let prompt := PromptKind.iter1 st1.iteration cfg.allowUv cfg.allowPip
        let c := runClaude cfg env.claudeOutcomes env.reportDuring env.saveTime st1 prompt 0
        let evFail : List Event :=
          if c.2.2 then [] else [.logBoth .claudeFailedWillRetry]
        let saved := saveStatus c.1 env.reportAtEnd env.saveTime
        (saved.1, evHead ++ evT ++ evR ++ c.2.1 ++ evFail ++ [saved.2], .cont)
    else
      let prompt := PromptKind.iterN st.iteration success error cfg.allowUv cfg.allowPip
      let c := runClaude cfg env.claudeOutcomes env.reportDuring env.saveTime st prompt 0
      let evFail : List Event :=
        if c.2.2 then [] else [.logBoth .claudeFailedWillRetry]
      let saved := saveStatus c.1 env.reportAtEnd env.saveTime
      (saved.1, evHead ++ evT ++ c.2.1 ++ evFail ++ [saved.2], .cont)

/-- The main experiment loop of `run`: while the iteration counter is
below the maximum, run one pass; stop when the pass signals stop, abort
the process when it exits, and otherwise sleep 3 seconds and continue.
`fuel` bounds the recursion; since every pass increments the counter,
`(maxIterations - iteration).toNat` passes is always enough.  The third
component is `some c` when the process exited with code `c` mid-loop. -/
def runLoop (env : Int → IterEnv) (cfg : Config) :
    Nat → RunnerState → RunnerState × List Event × Option Nat
  | 0, st => (st, [], none)
  | fuel + 1, st =>
    if st.iteration < cfg.maxIterations then
      match runIteration (env (st.iteration + 1)) cfg st with
      | (st', ev, .exit c) => (st', ev, some c)
      | (st', ev, .stop) => (st', ev, none)
      | (st', ev, .cont) =>
        let r := runLoop env cfg fuel st'
        (r.1, ev ++ [.sleep 3] ++ r.2.1, r.2.2)
    else (st, [], none)

/-- Environment of one full `run` call. -/
structure RunEnv where
  statusRead : FileRead StatusDoc
  planExists : Bool
  planResource : ResourceCheck
  planClaude : Nat → ProcOutcome
  planReport : Bool
  planSaveTime : ℚ
  iterEnv : Int → IterEnv
  reportAtFinish : Bool
  finalSaveTime : ℚ

/-- The tail of `run` after status loading and plan creation: the main
loop, the final summary logs, and the final `save_status`. -/
def loopAndFinish (env : RunEnv) (cfg : Config) (st : RunnerState)
    (evAcc : List Event) : RunnerState × List Event × Option Nat :=
  let fuel := (cfg.maxIterations - st.iteration).toNat
  let r := runLoop env.iterEnv cfg fuel st
  match r.2.2 with
  | some c => (r.1, evAcc ++ r.2.1, some c)
  | none =>
    let evSum : List Event :=
      [.logBoth (.finished r.1.iteration),
       if env.reportAtFinish then .logBoth .reportGenerated else .logBoth .noReport]
    let saved := saveStatus r.1 env.reportAtFinish env.finalSaveTime
    (saved.1, evAcc ++ r.2.1 ++ evSum ++ [saved.2], none)

/-- The plan-creation phase of `run` followed by the loop: when `PLAN.md`
is absent, `create_initial_plan` probes resources (which can exit the
process), builds the plan prompt from `gpu_info`, and invokes the
assistant; a failed plan invocation ends the run without entering the
loop. -/
def runAfterLoad (env : RunEnv) (cfg : Config) (st : RunnerState)
    (ev0 : List Event) : RunnerState × List Event × Option Nat :=
  if env.planExists then loopAndFinish env cfg st ev0
  else
    let evP0 : List Event := [.logBoth .creatingPlan]
    match checkResources env.planResource st with
    | (none, evR) => (st, ev0 ++ evP0 ++ evR, some 1)
    | (some st1, evR) =>
      let prompt := PromptKind.plan (st1.gpuInfo.getD "GPU status unknown")
        cfg.allowUv cfg.allowPip
      let c := runClaude cfg env.planClaude env.planReport env.planSaveTime st1 prompt 0
      if c.2.2 then
        loopAndFinish env cfg c.1 (ev0 ++ evP0 ++ evR ++ c.2.1 ++ [.sleep 2])
      else
        (c.1, ev0 ++ evP0 ++ evR ++ c.2.1 ++ [.logBoth .planFailed], none)

/-- `run`: loads the previous status when present (an unreadable document
raises out of `run`, killing the process with a non-zero code), returns at
once when the stored status marks the experiment complete, then runs plan
creation and the main loop. -/
def runMethod (env : RunEnv) (cfg : Config) (st0 : RunnerState) :
    RunnerState × List Event × Option Nat :=
  let ev0 : List Event := [.logBoth .startingExperiment]
  match env.statusRead with
  | .malformed => (st0, ev0, some 1)
  | .absent => runAfterLoad env cfg st0 ev0
  | .ok doc =>
    let st1 := { st0 with iteration := doc.iteration.getD 0 }
    if doc.complete.getD false then
      (st1, ev0 ++ [.logBoth .alreadyComplete], none)
    else runAfterLoad env cfg st1 ev0

/-- `get_session_id`: reads `session_id` from `status.json`; any read or
parse failure is swallowed by a bare `except: pass`, producing no output
and no log record. -/
def getSessionId : FileRead StatusDoc → Option String × List Event
  | .absent => (none, [])
  | .malformed => (none, [])
  | .ok doc => (doc.sessionId, [])

/-- `save_session_id`: re-reads `status.json` (a read or parse failure is
silently replaced by an empty record), sets the `session_id` key, and
rewrites the file; no console output or log record on any path. -/
def saveSessionId (statusRead : FileRead StatusDoc) (sid : String) :
    StatusDoc × List Event :=
  let base : StatusDoc :=
    match statusRead with
    | .ok doc => doc
    | _ => { iteration := none, timestamp := none, complete := none, sessionId := none }
  let doc := { base with sessionId := some sid }
  (doc, [.writeStatus doc])

/-- Console/file primitives of the `log` helper. -/
inductive IOAct
  | printOut (s : String)
  | appendFile (path : String) (s : String)
deriving Repr, DecidableEq

/-- `log`: prints the timestamped message and appends the same timestamped
line to the rolling log file. -/
def logMethod (ts : String) (message : String) : List IOAct :=
  [.printOut ("[" ++ ts ++ "] " ++ message),
   .appendFile "logs/runner.log" ("[" ++ ts ++ "] " ++ message ++ "\n")]

/-- `_validate_setup`: when `IDEA.md` is absent, prints two error lines
(bare `print`, no log-file record) and exits 1. -/
def validateSetup (cfg : Config) (ideaExists : Bool) : List Event × Option Nat :=
  if ideaExists then ([], none)
  else
    ([.printOnly ("ERROR: IDEA.md not found in " ++ cfg.experimentDir),
      .printOnly "Please create IDEA.md with your experiment description"],
     some 1)

/-- `main`: verifies the assistant CLI is discoverable (exiting 1
otherwise, with bare prints), constructs the runner — whose initializer
validates `IDEA.md` (exiting 1 when absent) and loads the stored session
identifier — and calls `run`.  The second component is `some c` when the
process exits with code `c`, and `none` on a normal (exit 0) return. -/
def mainProgram (claudeAvailable ideaExists : Bool) (env : RunEnv)
    (cfg : Config) : List Event × Option Nat :=
  if claudeAvailable then
    match validateSetup cfg ideaExists with
    | (evV, some c) => (evV, some c)
    | (evV, none) =>
      let got := getSessionId env.statusRead
      let st0 : RunnerState :=
        { iteration := 0, sessionId := got.1, gpuInfo := none,
          statusFile := env.statusRead }
      let r := runMethod env cfg st0
      (evV ++ got.2 ++ r.2.1, r.2.2)
  else
    ([.printOnly "ERROR: Claude Code CLI not found",
      .printOnly "Please install: https://github.com/anthropics/claude-code"],
     some 1)

/-- Whether an event spawns a subprocess (computation or assistant). -/
def isSpawn : Event → Bool
  | .spawnClaude _ _ => true
  | .spawnTraining _ _ _ _ => true
  | _ => false

/-- Number of assistant invocations recorded in a trace. -/
def countClaudeSpawns (ev : List Event) : Nat :=
  ev.countP fun e => match e with | .spawnClaude _ _ => true | _ => false

/-- Number of 30-second backoff sleeps recorded in a trace. -/
def countSleep30 (ev : List Event) : Nat :=
  ev.countP fun e => match e with | .sleep 30 => true | _ => false

/-- Whether an event reaches the console or the rolling log. -/
def isConsole : Event → Bool
  | .logBoth _ => true
  | .printOnly _ => true
  | _ => false

/-- Whether an event produces a rolling-log record (a `self.log` call). -/
def isLogRecord : Event → Bool
  | .logBoth _ => true
  | _ => false

/-- A concrete configuration used by witnesses. -/
def cfg0 : Config :=
  { experimentDir := "exp", maxIterations := 10, allowUv := false, allowPip := false }

/-- A concrete fresh runner state used by witnesses. -/
def st0 : RunnerState :=
  { iteration := 0, sessionId := none, gpuInfo := none, statusFile := .absent }

/-- A concrete fully-populated assistant response record, used by
witnesses. -/
def goodJson : ClaudeJson :=
  { sessionId := none
    result := none
    costUsd := some "1"
    totalCost := some "2"
    numTurns := some "3" }

/-- A concrete outcome sequence: rate-limited failures on the first two
attempts, success on the third. -/
def retryThenSuccess : Nat → ProcOutcome := fun n =>
  if n < 2 then .exited 1 (.malformed "") "rate limit reached"
  else .exited 0 (.json goodJson) ""

/-- A pass environment whose resource check fails: PyTorch is not
importable when the first loop pass probes resources. -/
def failingIterEnv : IterEnv :=
  { reportAtCheck := false
    scriptExists := fun _ => false
    trainOutcome := .exited 0
    resourceCheck := .importError
    claudeOutcomes := fun _ => .timedOut
    reportDuring := false
    reportAtEnd := false
    saveTime := 0 }

/-- A run environment with valid startup (status absent, plan present,
assistant discoverable) that hits the failing resource check during the
first loop pass. -/
def steadyStateCrashEnv : RunEnv :=
  { statusRead := .absent
    planExists := true
    planResource := .noGpu
    planClaude := fun _ => .timedOut
    planReport := false
    planSaveTime := 0
    iterEnv := fun _ => failingIterEnv
    reportAtFinish := false
    finalSaveTime := 0 }

/-- C1: the watchdog stop policy.  With timestamp and iteration stored, the
checks fire in order: elapsed time over 24 hours stops for runtime;
otherwise iteration over 20 stops for the iteration ceiling; otherwise
elapsed time over 2 hours stops for staleness; otherwise no stop.  Whenever
a stop is decided, the main block writes the completion artifact naming the
triggering reason. -/
theorem watchdog_stop_policy (doc : StatusDoc) (now ts : ℚ) (it : Int)
    (hts : doc.timestamp = some ts) (hit : doc.iteration = some it) :
    (((now - ts) / 3600 > 24 →
        checkExperiment (.ok doc) now 24 = some (true, .runningFor ((now - ts) / 3600)))
     ∧ (¬ ((now - ts) / 3600 > 24) → it > 20 →
        checkExperiment (.ok doc) now 24 = some (true, .exceededIterations))
     ∧ (¬ ((now - ts) / 3600 > 24) → ¬ (it > 20) → (now - ts) / 3600 > 2 →
        checkExperiment (.ok doc) now 24 = some (true, .noProgressFor ((now - ts) / 3600)))
     ∧ (¬ ((now - ts) / 3600 > 24) → ¬ (it > 20) → ¬ ((now - ts) / 3600 > 2) →
        checkExperiment (.ok doc) now 24
          = some (false, .statusLine it ((now - ts) / 3600))))
    ∧ (∀ (s : FileRead StatusDoc) (r : WatchMsg),
        checkExperiment s now 24 = some (true, r) →
        WatchAct.writeReport r ∈ (watchdogMain true s now).acts) := by
  constructor
  · refine ⟨?_, ?_, ?_, ?_⟩ <;>
      · intros
        simp only [checkExperiment, hts, hit, Option.getD_some]
        split <;> first | rfl | (try split) <;> first | rfl | omega | tauto
  · intro s r h
    simp only [watchdogMain, if_true, h]
    simp

/-- Witness for C1 at the three scenarios named by the claim: a 25-hour-old
timestamp with iteration 5 stops for runtime, a 1-hour-old timestamp with
iteration 21 stops for the iteration ceiling, and a fresh timestamp with
iteration 3 does not stop. -/
theorem watchdog_stop_policy_spot :
    checkExperiment (.ok ⟨some 5, some 0, some false, none⟩) 90000 24
      = some (true, .runningFor 25)
    ∧ checkExperiment (.ok ⟨some 21, some 86400, some false, none⟩) 90000 24
      = some (true, .exceededIterations)
    ∧ checkExperiment (.ok ⟨some 3, some 90000, some false, none⟩) 90000 24
      = some (false, .statusLine 3 0) := by
  refine ⟨?_, ?_, ?_⟩
  · have h := (watchdog_stop_policy ⟨some 5, some 0, some false, none⟩
      90000 0 5 rfl rfl).1.1 (by norm_num)
    norm_num at h
    exact h
  · exact (watchdog_stop_policy ⟨some 21, some 86400, some false, none⟩
      90000 86400 21 rfl rfl).1.2.1 (by norm_num) (by norm_num)
  · have h := (watchdog_stop_policy ⟨some 3, some 90000, some false, none⟩
      90000 90000 3 rfl rfl).1.2.2.2 (by norm_num) (by norm_num) (by norm_num)
    norm_num at h
    exact h

/-- Counterexample to C9: a present but unparseable `status.json` makes
`check_experiment` raise out of the unguarded `json.load`, so the watchdog
crashes: exit code 1, a traceback on standard error, and no status line —
it does fail the caller. -/
theorem watchdog_always_exits_zero_counterexample :
    watchdogMain true FileRead.malformed 0 =
      { acts := [.printTraceback], exitCode := 1 } := rfl

/-- C9 (amended): given a directory argument, whenever `check_experiment`
returns (the status document is absent or parses), the watchdog prints the
one-line status first and exits 0, even when it forces termination; an
absent document is a pure no-op report of no status; but a present,
unparseable document makes the watchdog exit 1 with no status line. -/
theorem watchdog_exit_policy (status : FileRead StatusDoc) (now : ℚ) :
    (∀ res : Bool × WatchMsg, checkExperiment status now 24 = some res →
        (watchdogMain true status now).exitCode = 0
        ∧ (watchdogMain true status now).acts.head? = some (.printStatus res.2))
    ∧ (status = FileRead.absent →
        watchdogMain true status now =
          { acts := [.printStatus .noStatusFile], exitCode := 0 })
    ∧ (status = FileRead.malformed →
        watchdogMain true status now =
          { acts := [.printTraceback], exitCode := 1 }) := by
  refine ⟨?_, ?_, ?_⟩
  · intro res h
    constructor
    · simp only [watchdogMain, if_true, h]
      split <;> rfl
    · simp only [watchdogMain, if_true, h]
      split <;> rfl
  · rintro rfl
    rfl
  · rintro rfl
    rfl

/-- Witness for the amended C9: concrete invocations on an absent status
document (no-op, exit 0), a parsed fresh document (status line, exit 0),
and a corrupt document (crash, exit 1). -/
theorem watchdog_exit_policy_spot :
    watchdogMain true FileRead.absent 0 =
      { acts := [.printStatus .noStatusFile], exitCode := 0 }
    ∧ (watchdogMain true (.ok ⟨some 3, some 0, some false, none⟩) 0).exitCode = 0
    ∧ watchdogMain true FileRead.malformed 0 =
      { acts := [.printTraceback], exitCode := 1 } := by
  refine ⟨?_, ?_, ?_⟩
  · exact (watchdog_exit_policy FileRead.absent 0).2.1 rfl
  · exact ((watchdog_exit_policy (.ok ⟨some 3, some 0, some false, none⟩) 0).1
      (false, .statusLine 3 0) (by norm_num [checkExperiment])).1
  · exact (watchdog_exit_policy FileRead.malformed 0).2.2 rfl

/-- C2: when the completion artifact exists at the check at the top of a
pass, `run_iteration` returns the stop signal after only log events, and
the loop terminates on that pass without spawning the computation or the
assistant process. -/
theorem report_check_stops_without_spawn (env : Int → IterEnv) (cfg : Config)
    (st : RunnerState) (fuel : Nat)
    (hrep : (env (st.iteration + 1)).reportAtCheck = true)
    (hlt : st.iteration < cfg.maxIterations) :
    runIteration (env (st.iteration + 1)) cfg st =
      ({ st with iteration := st.iteration + 1 },
       [.logBoth .separator, .logBoth (.startingIteration (st.iteration + 1)),
        .logBoth .completeReportExists], .stop)
    ∧ runLoop env cfg (fuel + 1) st =
      ({ st with iteration := st.iteration + 1 },
       [.logBoth .separator, .logBoth (.startingIteration (st.iteration + 1)),
        .logBoth .completeReportExists], none)
    ∧ ∀ e ∈ (runLoop env cfg (fuel + 1) st).2.1, isSpawn e = false := by
  have h1 : runIteration (env (st.iteration + 1)) cfg st =
      ({ st with iteration := st.iteration + 1 },
       [.logBoth .separator, .logBoth (.startingIteration (st.iteration + 1)),
        .logBoth .completeReportExists], .stop) := by
    simp [runIteration, hrep]
  have h2 : runLoop env cfg (fuel + 1) st =
      ({ st with iteration := st.iteration + 1 },
       [.logBoth .separator, .logBoth (.startingIteration (st.iteration + 1)),
        .logBoth .completeReportExists], none) := by
    simp only [runLoop, if_pos hlt, h1]
  refine ⟨h1, h2, ?_⟩
  rw [h2]
  intro e he
  simp only [List.mem_cons, List.not_mem_nil, or_false] at he
  rcases he with rfl | rfl | rfl <;> rfl

/-- Witness for C2: a concrete pass whose check finds the completion
artifact stops the loop with no spawn event. -/
theorem report_check_stops_without_spawn_spot :
    (runLoop
      (fun _ => { reportAtCheck := true, scriptExists := fun _ => true,
                  trainOutcome := .exited 0, resourceCheck := .noGpu,
                  claudeOutcomes := fun _ => .timedOut, reportDuring := true,
                  reportAtEnd := true, saveTime := 0 })
      { experimentDir := "exp", maxIterations := 10, allowUv := false, allowPip := false }
      10 { iteration := 0, sessionId := none, gpuInfo := none, statusFile := .absent }).2.2
      = none := by
  have h := report_check_stops_without_spawn
    (fun _ => { reportAtCheck := true, scriptExists := fun _ => true,
                trainOutcome := .exited 0, resourceCheck := .noGpu,
                claudeOutcomes := fun _ => .timedOut, reportDuring := true,
                reportAtEnd := true, saveTime := 0 })
    { experimentDir := "exp", maxIterations := 10, allowUv := false, allowPip := false }
    { iteration := 0, sessionId := none, gpuInfo := none, statusFile := .absent }
    9 rfl (by norm_num)
  rw [h.2.1]

/-- C6: `run_training` selects the first existing script from the fixed
ordered candidate list; with no script it fails with the no-script message
and no spawn, and the loop pass still continues; with a script it spawns it
with the experiment directory as working directory and per-iteration log
files, succeeding exactly when the exit code is zero, with a distinct
timeout message on timeout and the exit code in the message otherwise. -/
theorem run_training_contract (cfg : Config) (scriptExists : String → Bool)
    (outcome : TrainOutcome) (st : RunnerState) :
    (scriptExists "temp_check.py" = false → scriptExists "train.py" = false →
      runTraining cfg scriptExists outcome st = ((false, "No training script found"), []))
    ∧ (scriptExists "temp_check.py" = true → findScript scriptExists = some "temp_check.py")
    ∧ (scriptExists "temp_check.py" = false → scriptExists "train.py" = true →
      findScript scriptExists = some "train.py")
    ∧ (∀ script, findScript scriptExists = some script →
        Event.spawnTraining script cfg.experimentDir
            ("logs/iter_" ++ toString st.iteration ++ "_stdout.txt")
            ("logs/iter_" ++ toString st.iteration ++ "_stderr.txt")
          ∈ (runTraining cfg scriptExists outcome st).2
        ∧ (outcome = .exited 0 →
            (runTraining cfg scriptExists outcome st).1 = (true, "Success"))
        ∧ (∀ c : Int, c ≠ 0 → outcome = .exited c →
            (runTraining cfg scriptExists outcome st).1 = (false, "Exit code " ++ toString c))
        ∧ (outcome = .timedOut →
            (runTraining cfg scriptExists outcome st).1 = (false, "Timeout")))
    ∧ (∀ env : IterEnv, env.reportAtCheck = false → st.iteration + 1 ≠ 1 →
        (runIteration env cfg st).2.2 = .cont) := by
  refine ⟨?_, ?_, ?_, ?_, ?_⟩
  · intro h1 h2
    simp [runTraining, findScript, trainCandidates, h1, h2]
  · intro h1
    simp [findScript, trainCandidates, h1]
  · intro h1 h2
    simp [findScript, trainCandidates, h1, h2]
  · intro script hfind
    refine ⟨?_, ?_, ?_, ?_⟩
    · simp only [runTraining, hfind]
      cases outcome with
      | exited code =>
        by_cases hc : code = 0 <;> simp [hc]
      | timedOut => simp
      | raised msg => simp
    · rintro rfl
      simp [runTraining, hfind]
    · rintro c hc rfl
      simp [runTraining, hfind, hc]
    · rintro rfl
      simp [runTraining, hfind]
  · intro env hrep hne
    simp only [runIteration, hrep, Bool.false_eq_true, if_false, if_neg hne]

/-- Witness for C6: concrete checks of script selection and each result
case, and a concrete non-first pass that continues after a missing
script. -/
theorem run_training_contract_spot :
    runTraining
        { experimentDir := "exp", maxIterations := 10, allowUv := false, allowPip := false }
        (fun _ => false) (.exited 0)
        { iteration := 2, sessionId := none, gpuInfo := none, statusFile := .absent }
      = ((false, "No training script found"), [])
    ∧ findScript (fun s => s = "train.py") = some "train.py"
    ∧ (runTraining
        { experimentDir := "exp", maxIterations := 10, allowUv := false, allowPip := false }
        (fun s => s = "train.py") (.exited 7)
        { iteration := 2, sessionId := none, gpuInfo := none, statusFile := .absent }).1
      = (false, "Exit code 7") := by
  refine ⟨?_, ?_, ?_⟩
  · exact (run_training_contract _ (fun _ => false) (.exited 0) _).1 rfl rfl
  · exact (run_training_contract
      { experimentDir := "exp", maxIterations := 10, allowUv := false, allowPip := false }
      (fun s => s = "train.py") (.exited 0)
      { iteration := 2, sessionId := none, gpuInfo := none, statusFile := .absent }).2.2.1
      (by simp) (by simp)
  · exact ((run_training_contract _ (fun s => s = "train.py") (.exited 7) _).2.2.2.1
      "train.py" (by simp [findScript, trainCandidates])).2.2.1 7 (by norm_num) rfl

/-- Helper: on a zero exit whose output parses to a record carrying a
`session_id` key, `run_claude` adopts the identifier, persists the status
document, and then logs the response and the cost line (failing exactly
when an accounting key is missing). -/
theorem runClaude_adopts_session (cfg : Config) (outcomes : Nat → ProcOutcome)
    (reportNow : Bool) (saveTime : ℚ) (st : RunnerState) (prompt : PromptKind)
    (j : ClaudeJson) (stderr : String) (sid : Option String) (n : Nat)
    (h0 : outcomes n = .exited 0 (.json j) stderr)
    (hsid : j.sessionId = some sid) :
    (runClaude cfg outcomes reportNow saveTime st prompt n).1 =
      { st with
        sessionId := sid
        statusFile := .ok (saveStatusDoc { st with sessionId := sid } reportNow saveTime) }
    ∧ (runClaude cfg outcomes reportNow saveTime st prompt n).2.1 =
      (if truthy st.sessionId then [Event.logBoth (.resuming (st.sessionId.getD ""))] else [])
      ++ [.logBoth (.runningAnalysis st.iteration),
          .spawnClaude cfg.experimentDir (buildCmd cfg st.sessionId prompt),
          .writeStatus (saveStatusDoc { st with sessionId := sid } reportNow saveTime),
          .logBoth (.sessionSaved sid)]
      ++ (match j.result with
          | some content => [Event.logBoth (.claudeResponse content)]
          | none => [])
      ++ [.writeFile ("logs/claude_response_" ++ toString st.iteration ++ ".json"),
          (match j.costUsd, j.totalCost, j.numTurns with
           | some c, some t, some k => Event.logBoth (.analysisCompleted c t k)
           | _, _, _ => Event.logBoth (.claudeError (missingKeyMsg j)))]
    ∧ (runClaude cfg outcomes reportNow saveTime st prompt n).2.2 =
      (match j.costUsd, j.totalCost, j.numTurns with
       | some _, some _, some _ => true
       | _, _, _ => false) := by
  cases hcu : j.costUsd <;> cases hct : j.totalCost <;> cases hcn : j.numTurns <;>
    exact ⟨by simp [runClaude, h0, hsid, hcu, hct, hcn, saveStatus, saveStatusDoc],
           by simp [runClaude, h0, hsid, hcu, hct, hcn, saveStatus, saveStatusDoc],
           by simp [runClaude, h0, hsid, hcu, hct, hcn, saveStatus, saveStatusDoc]⟩

/-- C5: a held (truthy) session identifier always puts the resume
directive carrying that identifier into the built command line; and a
successfully parsed response carrying a session identifier is adopted and
persisted immediately, so every command line built afterwards resumes that
session. -/
theorem session_resume_directive (cfg : Config) :
    (∀ (sid : String) (prompt : PromptKind), sid ≠ "" →
      buildCmd cfg (some sid) prompt =
        [.lit "claude", .lit "--output-format", .lit "json",
         .lit "--allowedTools", .lit (allowedToolsStr cfg.allowUv cfg.allowPip),
         .lit "--resume", .lit sid, .lit "-p", .promptArg prompt])
    ∧ (∀ (outcomes : Nat → ProcOutcome) (reportNow : Bool) (saveTime : ℚ)
         (st : RunnerState) (prompt : PromptKind) (j : ClaudeJson)
         (stderr : String) (sid : String),
        outcomes 0 = ProcOutcome.exited 0 (.json j) stderr →
        j.sessionId = some (some sid) →
        (runClaude cfg outcomes reportNow saveTime st prompt 0).1.sessionId = some sid
        ∧ (runClaude cfg outcomes reportNow saveTime st prompt 0).1.statusFile
            = .ok (saveStatusDoc { st with sessionId := some sid } reportNow saveTime)
        ∧ Event.writeStatus (saveStatusDoc { st with sessionId := some sid } reportNow saveTime)
            ∈ (runClaude cfg outcomes reportNow saveTime st prompt 0).2.1
        ∧ (sid ≠ "" → ∀ prompt2 : PromptKind,
            buildCmd cfg (runClaude cfg outcomes reportNow saveTime st prompt 0).1.sessionId
                prompt2 =
              [.lit "claude", .lit "--output-format", .lit "json",
               .lit "--allowedTools", .lit (allowedToolsStr cfg.allowUv cfg.allowPip),
               .lit "--resume", .lit sid, .lit "-p", .promptArg prompt2])) := by
  have hbuild : ∀ (sid : String) (prompt : PromptKind), sid ≠ "" →
      buildCmd cfg (some sid) prompt =
        [.lit "claude", .lit "--output-format", .lit "json",
         .lit "--allowedTools", .lit (allowedToolsStr cfg.allowUv cfg.allowPip),
         .lit "--resume", .lit sid, .lit "-p", .promptArg prompt] := by
    intro sid prompt hne
    simp [buildCmd, truthy, hne]
  refine ⟨hbuild, ?_⟩
  intro outcomes reportNow saveTime st prompt j stderr sid h0 hsid
  obtain ⟨hst, htr, _⟩ :=
    runClaude_adopts_session cfg outcomes reportNow saveTime st prompt j stderr
      (some sid) 0 h0 hsid
  refine ⟨by rw [hst], by rw [hst], ?_, ?_⟩
  · rw [htr]
    simp
  · intro hne prompt2
    rw [hst]
    exact hbuild sid prompt2 hne

/-- Witness for C5: a concrete held identifier produces the resume
directive, and a concrete parsed response carrying an identifier is
adopted and persisted. -/
theorem session_resume_directive_spot :
    buildCmd cfg0 (some "abc") (.iter1 1 false false) =
      [.lit "claude", .lit "--output-format", .lit "json",
       .lit "--allowedTools", .lit (allowedToolsStr false false),
       .lit "--resume", .lit "abc", .lit "-p", .promptArg (.iter1 1 false false)]
    ∧ (runClaude cfg0
        (fun _ => .exited 0
          (.json { sessionId := some (some "abc"), result := none,
                   costUsd := some "1", totalCost := some "2", numTurns := some "3" }) "")
        false 0 st0 (.iter1 1 false false) 0).1.sessionId = some "abc" := by
  constructor
  · exact (session_resume_directive cfg0).1 "abc" (.iter1 1 false false) (by decide)
  · exact ((session_resume_directive cfg0).2
      (fun _ => .exited 0
        (.json { sessionId := some (some "abc"), result := none,
                 costUsd := some "1", totalCost := some "2", numTurns := some "3" }) "")
      false 0 st0 (.iter1 1 false false)
      { sessionId := some (some "abc"), result := none,
        costUsd := some "1", totalCost := some "2", numTurns := some "3" }
      "" "abc" rfl rfl).1

/-- C10: a zero-exit response that parses and carries a session identifier
but lacks an accounting key makes `run_claude` return failure, yet the
identifier has already been adopted and the status document persisted
before the failure is logged. -/
theorem failed_cost_line_still_persists_session (cfg : Config)
    (outcomes : Nat → ProcOutcome) (reportNow : Bool) (saveTime : ℚ)
    (st : RunnerState) (prompt : PromptKind) (j : ClaudeJson) (stderr : String)
    (sid : String)
    (h0 : outcomes 0 = .exited 0 (.json j) stderr)
    (hsid : j.sessionId = some (some sid))
    (hmiss : j.costUsd = none ∨ j.totalCost = none ∨ j.numTurns = none) :
    (runClaude cfg outcomes reportNow saveTime st prompt 0).2.2 = false
    ∧ (runClaude cfg outcomes reportNow saveTime st prompt 0).1.sessionId = some sid
    ∧ (runClaude cfg outcomes reportNow saveTime st prompt 0).1.statusFile
        = .ok (saveStatusDoc { st with sessionId := some sid } reportNow saveTime)
    ∧ ∃ pre mid,
        (runClaude cfg outcomes reportNow saveTime st prompt 0).2.1
          = pre
            ++ [Event.writeStatus
                  (saveStatusDoc { st with sessionId := some sid } reportNow saveTime)]
            ++ mid ++ [Event.logBoth (.claudeError (missingKeyMsg j))] := by
  obtain ⟨hst, htr, hok⟩ :=
    runClaude_adopts_session cfg outcomes reportNow saveTime st prompt j stderr
      (some sid) 0 h0 hsid
  have hfail : (match j.costUsd, j.totalCost, j.numTurns with
      | some _, some _, some _ => true
      | _, _, _ => false) = false := by
    cases hcu : j.costUsd <;> cases hct : j.totalCost <;> cases hcn : j.numTurns <;>
      first
      | rfl
      | (exfalso; rcases hmiss with hm | hm | hm <;> simp_all)
  have hlast : (match j.costUsd, j.totalCost, j.numTurns with
      | some c, some t, some k => Event.logBoth (.analysisCompleted c t k)
      | _, _, _ => Event.logBoth (.claudeError (missingKeyMsg j)))
      = Event.logBoth (.claudeError (missingKeyMsg j)) := by
    cases hcu : j.costUsd <;> cases hct : j.totalCost <;> cases hcn : j.numTurns <;>
      first
      | rfl
      | (exfalso; rcases hmiss with hm | hm | hm <;> simp_all)
  refine ⟨by rw [hok, hfail], by rw [hst], by rw [hst], ?_⟩
  refine ⟨(if truthy st.sessionId then [Event.logBoth (.resuming (st.sessionId.getD ""))] else [])
    ++ [.logBoth (.runningAnalysis st.iteration),
        .spawnClaude cfg.experimentDir (buildCmd cfg st.sessionId prompt)],
    [Event.logBoth (.sessionSaved (some sid))]
    ++ (match j.result with
        | some content => [Event.logBoth (.claudeResponse content)]
        | none => [])
    ++ [.writeFile ("logs/claude_response_" ++ toString st.iteration ++ ".json")], ?_⟩
  rw [htr, hlast]
  simp

/-- Witness for C10: a concrete parsed response with a session identifier
and no accounting keys fails while persisting the adopted identifier. -/
theorem failed_cost_line_still_persists_session_spot :
    (runClaude cfg0
      (fun _ => .exited 0
        (.json { sessionId := some (some "abc"), result := some "hi",
                 costUsd := none, totalCost := none, numTurns := none }) "")
      false 0 st0 (.iter1 1 false false) 0).2.2 = false
    ∧ (runClaude cfg0
      (fun _ => .exited 0
        (.json { sessionId := some (some "abc"), result := some "hi",
                 costUsd := none, totalCost := none, numTurns := none }) "")
      false 0 st0 (.iter1 1 false false) 0).1.sessionId = some "abc" := by
  have h := failed_cost_line_still_persists_session cfg0
    (fun _ => .exited 0
      (.json { sessionId := some (some "abc"), result := some "hi",
               costUsd := none, totalCost := none, numTurns := none }) "")
    false 0 st0 (.iter1 1 false false)
    { sessionId := some (some "abc"), result := some "hi",
      costUsd := none, totalCost := none, numTurns := none }
    "" "abc" rfl rfl (Or.inl rfl)
  exact ⟨h.1, h.2.1⟩

/-- Helper: assistant-spawn counting distributes over trace appends. -/
theorem countClaudeSpawns_append (a b : List Event) :
    countClaudeSpawns (a ++ b) = countClaudeSpawns a + countClaudeSpawns b :=
  List.countP_append _ _ _

/-- Helper: backoff-sleep counting distributes over trace appends. -/
theorem countSleep30_append (a b : List Event) :
    countSleep30 (a ++ b) = countSleep30 a + countSleep30 b :=
  List.countP_append _ _ _

/-- Helper: a rate-limited non-zero exit below the retry budget logs the
error, sleeps 30 seconds, and recurses with the attempt counter
incremented. -/
theorem runClaude_retry_step (cfg : Config) (outcomes : Nat → ProcOutcome)
    (reportNow : Bool) (saveTime : ℚ) (st : RunnerState) (prompt : PromptKind)
    (n : Nat) (c : Int) (sout : ClaudeStdout) (serr : String)
    (hn : n < 2) (h0 : outcomes n = .exited c sout serr) (hc : c ≠ 0)
    (hr : rateLimitIn (claudeErrMsg serr) = true) :
    runClaude cfg outcomes reportNow saveTime st prompt n =
      ((runClaude cfg outcomes reportNow saveTime st prompt (n + 1)).1,
       (if truthy st.sessionId then [Event.logBoth (.resuming (st.sessionId.getD ""))] else [])
       ++ [.logBoth (.runningAnalysis st.iteration),
           .spawnClaude cfg.experimentDir (buildCmd cfg st.sessionId prompt),
           .logBoth (.claudeError (claudeErrMsg serr)), .logBoth .retrying, .sleep 30]
       ++ (runClaude cfg outcomes reportNow saveTime st prompt (n + 1)).2.1,
       (runClaude cfg outcomes reportNow saveTime st prompt (n + 1)).2.2) := by
  conv_lhs => rw [runClaude]
  rw [h0]
  simp only [if_neg hc]
  rw [dif_pos ⟨hn, hr⟩]
  simp [List.append_assoc]

/-- Helper: a non-zero exit that is either past the retry budget or not
rate limited fails at once, with a single spawn and no sleep. -/
theorem runClaude_fail_step (cfg : Config) (outcomes : Nat → ProcOutcome)
    (reportNow : Bool) (saveTime : ℚ) (st : RunnerState) (prompt : PromptKind)
    (n : Nat) (c : Int) (sout : ClaudeStdout) (serr : String)
    (h0 : outcomes n = .exited c sout serr) (hc : c ≠ 0)
    (hstop : ¬(n < 2 ∧ rateLimitIn (claudeErrMsg serr) = true)) :
    runClaude cfg outcomes reportNow saveTime st prompt n =
      (st,
       (if truthy st.sessionId then [Event.logBoth (.resuming (st.sessionId.getD ""))] else [])
       ++ [.logBoth (.runningAnalysis st.iteration),
           .spawnClaude cfg.experimentDir (buildCmd cfg st.sessionId prompt),
           .logBoth (.claudeError (claudeErrMsg serr))],
       false) := by
  conv_lhs => rw [runClaude]
  rw [h0]
  simp only [if_neg hc]
  rw [dif_neg hstop]
  simp [List.append_assoc]

/-- Helper: a zero exit with a fully-parsed record carrying all accounting
keys succeeds, with a single spawn and no sleep. -/
theorem runClaude_success_counts (cfg : Config) (outcomes : Nat → ProcOutcome)
    (reportNow : Bool) (saveTime : ℚ) (st : RunnerState) (prompt : PromptKind)
    (n : Nat) (j : ClaudeJson) (serr : String) (a b d : String)
    (h0 : outcomes n = .exited 0 (.json j) serr)
    (hcu : j.costUsd = some a) (hct : j.totalCost = some b)
    (hcn : j.numTurns = some d) :
    (runClaude cfg outcomes reportNow saveTime st prompt n).2.2 = true
    ∧ countClaudeSpawns (runClaude cfg outcomes reportNow saveTime st prompt n).2.1 = 1
    ∧ countSleep30 (runClaude cfg outcomes reportNow saveTime st prompt n).2.1 = 0 := by
  obtain ⟨sid?, res?, cu, ct, cn⟩ := j
  simp only [ClaudeJson.costUsd] at hcu
  simp only [ClaudeJson.totalCost] at hct
  simp only [ClaudeJson.numTurns] at hcn
  subst hcu hct hcn
  cases htr : truthy st.sessionId <;> cases sid? <;> cases res? <;>
    simp [runClaude, h0, htr, countClaudeSpawns, countSleep30,
      List.countP_append, List.countP_cons, saveStatus]

/-- C3: the retry policy of `run_claude`.  A rate-limited non-zero exit
below the budget of 2 sleeps 30 seconds and retries with an incremented
attempt counter; a non-rate-limited non-zero exit fails with no retry;
rate-limit failures on the first two attempts followed by a success give
overall success after exactly two retries (three spawns, two 30-second
sleeps); three consecutive rate-limit failures give failure after exactly
three spawns, with no fourth attempt. -/
theorem rate_limit_retry_policy (cfg : Config) (outcomes : Nat → ProcOutcome)
    (reportNow : Bool) (saveTime : ℚ) (st : RunnerState) (prompt : PromptKind) :
    (∀ (n : Nat) (c : Int) (sout : ClaudeStdout) (serr : String), n < 2 →
        outcomes n = .exited c sout serr → c ≠ 0 →
        rateLimitIn (claudeErrMsg serr) = true →
        Event.sleep 30 ∈ (runClaude cfg outcomes reportNow saveTime st prompt n).2.1
        ∧ (runClaude cfg outcomes reportNow saveTime st prompt n).2.2
            = (runClaude cfg outcomes reportNow saveTime st prompt (n + 1)).2.2)
    ∧ (∀ (n : Nat) (c : Int) (sout : ClaudeStdout) (serr : String),
        outcomes n = .exited c sout serr → c ≠ 0 →
        rateLimitIn (claudeErrMsg serr) = false →
        (runClaude cfg outcomes reportNow saveTime st prompt n).2.2 = false
        ∧ countClaudeSpawns (runClaude cfg outcomes reportNow saveTime st prompt n).2.1 = 1
        ∧ countSleep30 (runClaude cfg outcomes reportNow saveTime st prompt n).2.1 = 0)
    ∧ (∀ (c0 c1 : Int) (s0 s1 : ClaudeStdout) (e0 e1 e2 : String)
         (j : ClaudeJson) (a b d : String),
        outcomes 0 = .exited c0 s0 e0 → c0 ≠ 0 → rateLimitIn (claudeErrMsg e0) = true →
        outcomes 1 = .exited c1 s1 e1 → c1 ≠ 0 → rateLimitIn (claudeErrMsg e1) = true →
        outcomes 2 = .exited 0 (.json j) e2 →
        j.costUsd = some a → j.totalCost = some b → j.numTurns = some d →
        (runClaude cfg outcomes reportNow saveTime st prompt 0).2.2 = true
        ∧ countClaudeSpawns (runClaude cfg outcomes reportNow saveTime st prompt 0).2.1 = 3
        ∧ countSleep30 (runClaude cfg outcomes reportNow saveTime st prompt 0).2.1 = 2)
    ∧ (∀ (c0 c1 c2 : Int) (s0 s1 s2 : ClaudeStdout) (e0 e1 e2 : String),
        outcomes 0 = .exited c0 s0 e0 → c0 ≠ 0 → rateLimitIn (claudeErrMsg e0) = true →
        outcomes 1 = .exited c1 s1 e1 → c1 ≠ 0 → rateLimitIn (claudeErrMsg e1) = true →
        outcomes 2 = .exited c2 s2 e2 → c2 ≠ 0 → rateLimitIn (claudeErrMsg e2) = true →
        (runClaude cfg outcomes reportNow saveTime st prompt 0).2.2 = false
        ∧ countClaudeSpawns (runClaude cfg outcomes reportNow saveTime st prompt 0).2.1 = 3) := by
  refine ⟨?_, ?_, ?_, ?_⟩
  · intro n c sout serr hn h0 hc hr
    rw [runClaude_retry_step cfg outcomes reportNow saveTime st prompt n c sout serr hn h0 hc hr]
    constructor
    · simp
    · rfl
  · intro n c sout serr h0 hc hr
    rw [runClaude_fail_step cfg outcomes reportNow saveTime st prompt n c sout serr h0 hc
      (by simp [hr])]
    cases htr : truthy st.sessionId <;>
      simp [countClaudeSpawns, countSleep30, List.countP_append, List.countP_cons, htr]
  · intro c0 c1 s0 s1 e0 e1 e2 j a b d h0 hc0 hr0 h1 hc1 hr1 h2 hcu hct hcn
    have st0eq := runClaude_retry_step cfg outcomes reportNow saveTime st prompt 0 c0 s0 e0
      (by norm_num) h0 hc0 hr0
    have st1eq := runClaude_retry_step cfg outcomes reportNow saveTime st prompt 1 c1 s1 e1
      (by norm_num) h1 hc1 hr1
    have st2eq := runClaude_success_counts cfg outcomes reportNow saveTime st prompt 2 j e2
      a b d h2 hcu hct hcn
    rw [st0eq]
    refine ⟨?_, ?_, ?_⟩
    · rw [st1eq]
      exact st2eq.1
    · rw [st1eq]
      simp only [countClaudeSpawns_append, st2eq.2.1]
      cases htr : truthy st.sessionId <;>
        simp [countClaudeSpawns, List.countP_cons, htr]
    · rw [st1eq]
      simp only [countSleep30_append, st2eq.2.2]
      cases htr : truthy st.sessionId <;>
        simp [countSleep30, List.countP_cons, htr]
  · intro c0 c1 c2 s0 s1 s2 e0 e1 e2 h0 hc0 hr0 h1 hc1 hr1 h2 hc2 hr2
    have st0eq := runClaude_retry_step cfg outcomes reportNow saveTime st prompt 0 c0 s0 e0
      (by norm_num) h0 hc0 hr0
    have st1eq := runClaude_retry_step cfg outcomes reportNow saveTime st prompt 1 c1 s1 e1
      (by norm_num) h1 hc1 hr1
    have st2eq := runClaude_fail_step cfg outcomes reportNow saveTime st prompt 2 c2 s2 e2
      h2 hc2 (by norm_num)
    rw [st0eq]
    constructor
    · rw [st1eq, st2eq]
    · rw [st1eq, st2eq]
      simp only [countClaudeSpawns_append]
      cases htr : truthy st.sessionId <;>
        simp [countClaudeSpawns, List.countP_cons, htr]

set_option maxRecDepth 8192 in
/-- Witness for C3: concrete outcome sequences exercising the
success-after-two-retries case and the no-retry case. -/
theorem rate_limit_retry_policy_spot :
    (runClaude cfg0 retryThenSuccess false 0 st0 (.iter1 1 false false) 0).2.2 = true
    ∧ (runClaude cfg0 (fun _ => .exited 1 (.malformed "") "boom")
        false 0 st0 (.iter1 1 false false) 0).2.2 = false := by
  constructor
  · exact ((rate_limit_retry_policy cfg0 retryThenSuccess
      false 0 st0 (.iter1 1 false false)).2.2.1
      1 1 (.malformed "") (.malformed "") "rate limit reached" "rate limit reached" ""
      goodJson "1" "2" "3" rfl (by norm_num) (by decide) rfl (by norm_num) (by decide)
      rfl rfl rfl rfl).1
  · exact ((rate_limit_retry_policy cfg0
      (fun _ => .exited 1 (.malformed "") "boom")
      false 0 st0 (.iter1 1 false false)).2.1
      0 1 (.malformed "") "boom" rfl (by norm_num) (by decide)).1

/-- Helper: on a zero exit whose output parses to a record without a
`session_id` key, `run_claude` leaves the state unchanged and performs no
status write. -/
theorem runClaude_no_session (cfg : Config) (outcomes : Nat → ProcOutcome)
    (reportNow : Bool) (saveTime : ℚ) (st : RunnerState) (prompt : PromptKind)
    (j : ClaudeJson) (stderr : String) (n : Nat)
    (h0 : outcomes n = .exited 0 (.json j) stderr)
    (hsid : j.sessionId = none) :
    (runClaude cfg outcomes reportNow saveTime st prompt n).1 = st
    ∧ (runClaude cfg outcomes reportNow saveTime st prompt n).2.1 =
      (if truthy st.sessionId then [Event.logBoth (.resuming (st.sessionId.getD ""))] else [])
      ++ [.logBoth (.runningAnalysis st.iteration),
          .spawnClaude cfg.experimentDir (buildCmd cfg st.sessionId prompt)]
      ++ (match j.result with
          | some content => [Event.logBoth (.claudeResponse content)]
          | none => [])
      ++ [.writeFile ("logs/claude_response_" ++ toString st.iteration ++ ".json"),
          (match j.costUsd, j.totalCost, j.numTurns with
           | some c, some t, some k => Event.logBoth (.analysisCompleted c t k)
           | _, _, _ => Event.logBoth (.claudeError (missingKeyMsg j)))]
    ∧ (runClaude cfg outcomes reportNow saveTime st prompt n).2.2 =
      (match j.costUsd, j.totalCost, j.numTurns with
       | some _, some _, some _ => true
       | _, _, _ => false) := by
  cases hcu : j.costUsd <;> cases hct : j.totalCost <;> cases hcn : j.numTurns <;>
    exact ⟨by simp [runClaude, h0, hsid, hcu, hct, hcn],
           by simp [runClaude, h0, hsid, hcu, hct, hcn],
           by simp [runClaude, h0, hsid, hcu, hct, hcn]⟩

/-- Helper: `run_claude` never changes the iteration counter, and every
status document it writes carries the current iteration. -/
theorem runClaude_iter_inv (cfg : Config) (outcomes : Nat → ProcOutcome)
    (reportNow : Bool) (saveTime : ℚ) (prompt : PromptKind) :
    ∀ (n : Nat) (st : RunnerState),
      (runClaude cfg outcomes reportNow saveTime st prompt n).1.iteration = st.iteration
      ∧ ∀ doc, Event.writeStatus doc ∈ (runClaude cfg outcomes reportNow saveTime st prompt n).2.1 →
          doc.iteration = some st.iteration := by
  have step : ∀ (n : Nat),
      (n < 2 → ∀ st' : RunnerState,
        (runClaude cfg outcomes reportNow saveTime st' prompt (n + 1)).1.iteration = st'.iteration
        ∧ ∀ doc, Event.writeStatus doc ∈
            (runClaude cfg outcomes reportNow saveTime st' prompt (n + 1)).2.1 →
            doc.iteration = some st'.iteration) →
      ∀ st : RunnerState,
        (runClaude cfg outcomes reportNow saveTime st prompt n).1.iteration = st.iteration
        ∧ ∀ doc, Event.writeStatus doc ∈
            (runClaude cfg outcomes reportNow saveTime st prompt n).2.1 →
            doc.iteration = some st.iteration := by
    intro n IH st
    cases houtcome : outcomes n with
    | timedOut =>
      constructor
      · simp [runClaude, houtcome]
      · intro doc hdoc
        cases htr : truthy st.sessionId <;> simp [runClaude, houtcome, htr] at hdoc
    | raised msg =>
      constructor
      · simp [runClaude, houtcome]
      · intro doc hdoc
        cases htr : truthy st.sessionId <;> simp [runClaude, houtcome, htr] at hdoc
    | exited code stdout stderr =>
      by_cases hcode : code = 0
      · subst hcode
        cases stdout with
        | malformed raw =>
          constructor
          · simp [runClaude, houtcome]
          · intro doc hdoc
            cases htr : truthy st.sessionId <;> simp [runClaude, houtcome, htr] at hdoc
        | json j =>
          cases hsid : j.sessionId with
          | none =>
            obtain ⟨hst, htr2, _⟩ := runClaude_no_session cfg outcomes reportNow saveTime
              st prompt j stderr n houtcome hsid
            constructor
            · rw [hst]
            · intro doc hdoc
              rw [htr2] at hdoc
              cases htr : truthy st.sessionId <;> cases hres : j.result <;>
                cases hcu : j.costUsd <;> cases hct : j.totalCost <;> cases hcn : j.numTurns <;>
                  simp [htr, hres, hcu, hct, hcn] at hdoc
          | some sid =>
            obtain ⟨hst, htr2, _⟩ := runClaude_adopts_session cfg outcomes reportNow saveTime
              st prompt j stderr sid n houtcome hsid
            constructor
            · rw [hst]
            · intro doc hdoc
              rw [htr2] at hdoc
              cases htr : truthy st.sessionId <;> cases hres : j.result <;>
                cases hcu : j.costUsd <;> cases hct : j.totalCost <;> cases hcn : j.numTurns <;>
                  simp [htr, hres, hcu, hct, hcn] at hdoc <;>
                  simp [hdoc, saveStatusDoc]
      · by_cases hguard : n < 2 ∧ rateLimitIn (claudeErrMsg stderr) = true
        · rw [runClaude_retry_step cfg outcomes reportNow saveTime st prompt n code stdout
            stderr hguard.1 houtcome hcode hguard.2]
          obtain ⟨ih1, ih2⟩ := IH hguard.1 st
          constructor
          · exact ih1
          · intro doc hdoc
            cases htr : truthy st.sessionId <;> simp [htr] at hdoc <;>
              exact ih2 doc hdoc
        · rw [runClaude_fail_step cfg outcomes reportNow saveTime st prompt n code stdout
            stderr houtcome hcode hguard]
          constructor
          · rfl
          · intro doc hdoc
            cases htr : truthy st.sessionId <;> simp [htr] at hdoc
  intro n
  match n with
  | 0 =>
    exact step 0 (fun _ => step 1 (fun _ => step 2 (fun h => absurd h (by omega))))
  | 1 =>
    exact step 1 (fun _ => step 2 (fun h => absurd h (by omega)))
  | n + 2 =>
    exact step (n + 2) (fun h => absurd h (by omega))

/-- Helper: `run_training` never writes the status document. -/
theorem runTraining_no_writes (cfg : Config) (se : String → Bool)
    (outcome : TrainOutcome) (st : RunnerState) (doc : StatusDoc) :
    Event.writeStatus doc ∉ (runTraining cfg se outcome st).2 := by
  cases hf : findScript se with
  | none => simp [runTraining, hf]
  | some script =>
    cases outcome with
    | exited code => by_cases hc : code = 0 <;> simp [runTraining, hf, hc]
    | timedOut => simp [runTraining, hf]
    | raised m => simp [runTraining, hf]

/-- Helper: `_check_resources` never writes the status document. -/
theorem checkResources_no_writes (rc : ResourceCheck) (st : RunnerState) (doc : StatusDoc) :
    Event.writeStatus doc ∉ (checkResources rc st).2 := by
  cases rc <;> simp [checkResources]

/-- Helper: every status write in the assistant-then-save tail of a pass
carries the iteration of the state entering the tail. -/
theorem iterTail_inv (cfg : Config) (outcomes : Nat → ProcOutcome) (rD rE : Bool)
    (tS : ℚ) (st1 : RunnerState) (prompt : PromptKind) (doc : StatusDoc)
    (hdoc : Event.writeStatus doc ∈ (runClaude cfg outcomes rD tS st1 prompt 0).2.1
      ∨ (Event.writeStatus doc ∈
          (if (runClaude cfg outcomes rD tS st1 prompt 0).2.2 then ([] : List Event)
           else [Event.logBoth .claudeFailedWillRetry]))
      ∨ Event.writeStatus doc ∈
          [(saveStatus (runClaude cfg outcomes rD tS st1 prompt 0).1 rE tS).2]) :
    doc.iteration = some st1.iteration := by
  obtain ⟨h1, h2⟩ := runClaude_iter_inv cfg outcomes rD tS prompt 0 st1
  rcases hdoc with h | h | h
  · exact h2 doc h
  · cases hok : (runClaude cfg outcomes rD tS st1 prompt 0).2.2 <;> simp [hok] at h
  · simp only [saveStatus, List.mem_singleton, Event.writeStatus.injEq] at h
    rw [h]
    simp [saveStatusDoc, h1]

/-- C4: the persisted iteration is strictly increasing and survives
restarts.  The document written by `save_status` round-trips the iteration
and session identifier exactly (so a fresh runner reads back the values
last written); each `run_iteration` pass raises the in-memory counter by
exactly one and every status document persisted during the pass carries
that incremented value; and `run` on a stored non-complete status resumes
from the stored iteration rather than resetting to zero. -/
theorem iteration_monotone_roundtrip :
    (∀ (st : RunnerState) (r : Bool) (now : ℚ),
        (saveStatusDoc st r now).iteration = some st.iteration
        ∧ (saveStatusDoc st r now).sessionId = st.sessionId
        ∧ getSessionId (.ok (saveStatusDoc st r now)) = (st.sessionId, [])
        ∧ (saveStatusDoc st r now).iteration.getD 0 = st.iteration)
    ∧ (∀ (env : IterEnv) (cfg : Config) (st0 : RunnerState),
        (runIteration env cfg st0).1.iteration = st0.iteration + 1
        ∧ ∀ doc, Event.writeStatus doc ∈ (runIteration env cfg st0).2.1 →
            doc.iteration = some (st0.iteration + 1))
    ∧ (∀ (env : RunEnv) (cfg : Config) (st0 : RunnerState) (doc : StatusDoc),
        env.statusRead = .ok doc → doc.complete.getD false = false →
        runMethod env cfg st0 =
          runAfterLoad env cfg { st0 with iteration := doc.iteration.getD 0 }
            [.logBoth .startingExperiment]) := by
  refine ⟨?_, ?_, ?_⟩
  · intro st r now
    exact ⟨rfl, rfl, rfl, rfl⟩
  · intro env cfg st0
    by_cases hrep : env.reportAtCheck
    · constructor
      · simp [runIteration, hrep]
      · intro doc hdoc
        simp [runIteration, hrep] at hdoc
    · have hrep' : env.reportAtCheck = false := by simpa using hrep
      by_cases hone : st0.iteration + 1 = 1
      · by_cases hgpu : st0.gpuInfo.isNone
        · cases hrc : env.resourceCheck with
          | gpu name mem =>
            constructor
            · simp only [runIteration, hrep', hone, hgpu, hrc, checkResources, if_true,
                Bool.false_eq_true, if_false, if_pos]
              exact (runClaude_iter_inv cfg env.claudeOutcomes env.reportDuring
                env.saveTime _ 0 _).1
            · intro doc hdoc
              simp only [runIteration, hrep', hone, hgpu, hrc, checkResources, if_true,
                Bool.false_eq_true, if_false, if_pos, List.append_assoc,
                List.mem_append] at hdoc
              rcases hdoc with h | h | h | h
              · simp at h
              · exact absurd h (runTraining_no_writes cfg env.scriptExists
                  env.trainOutcome _ doc)
              · simp at h
              · have hti := iterTail_inv cfg env.claudeOutcomes env.reportDuring
                  env.reportAtEnd env.saveTime _ _ doc h
                simpa [hone] using hti
          | noGpu =>
            constructor
            · simp only [runIteration, hrep', hone, hgpu, hrc, checkResources, if_true,
                Bool.false_eq_true, if_false, if_pos]
              exact (runClaude_iter_inv cfg env.claudeOutcomes env.reportDuring
                env.saveTime _ 0 _).1
            · intro doc hdoc
              simp only [runIteration, hrep', hone, hgpu, hrc, checkResources, if_true,
                Bool.false_eq_true, if_false, if_pos, List.append_assoc,
                List.mem_append] at hdoc
              rcases hdoc with h | h | h | h
              · simp at h
              · exact absurd h (runTraining_no_writes cfg env.scriptExists
                  env.trainOutcome _ doc)
              · simp at h
              · have hti := iterTail_inv cfg env.claudeOutcomes env.reportDuring
                  env.reportAtEnd env.saveTime _ _ doc h
                simpa [hone] using hti
          | importError =>
            constructor
            · simp [runIteration, hrep', hone, hgpu, hrc, checkResources]
            · intro doc hdoc
              simp [runIteration, hrep', hone, hgpu, hrc, checkResources] at hdoc
              exact absurd hdoc (runTraining_no_writes cfg env.scriptExists
                env.trainOutcome _ doc)
          | otherError m =>
            constructor
            · simp [runIteration, hrep', hone, hgpu, hrc, checkResources]
            · intro doc hdoc
              simp [runIteration, hrep', hone, hgpu, hrc, checkResources] at hdoc
              exact absurd hdoc (runTraining_no_writes cfg env.scriptExists
                env.trainOutcome _ doc)
        · constructor
          · simp only [runIteration, hrep', hone, hgpu, if_true, Bool.false_eq_true,
              if_false, if_pos, if_neg]
            exact (runClaude_iter_inv cfg env.claudeOutcomes env.reportDuring
              env.saveTime _ 0 _).1
          · intro doc hdoc
            simp only [runIteration, hrep', hone, hgpu, if_true, Bool.false_eq_true,
              if_false, if_pos, if_neg, List.append_assoc, List.mem_append,
              List.nil_append] at hdoc
            rcases hdoc with h | h | h
            · simp at h
            · exact absurd h (runTraining_no_writes cfg env.scriptExists
                env.trainOutcome _ doc)
            · have hti := iterTail_inv cfg env.claudeOutcomes env.reportDuring
                env.reportAtEnd env.saveTime _ _ doc h
              simpa [hone] using hti
      · constructor
        · simp only [runIteration, hrep', Bool.false_eq_true, if_false, if_neg hone]
          exact (runClaude_iter_inv cfg env.claudeOutcomes env.reportDuring
            env.saveTime _ 0 _).1
        · intro doc hdoc
          simp only [runIteration, hrep', Bool.false_eq_true, if_false, if_neg hone,
            List.append_assoc, List.mem_append] at hdoc
          rcases hdoc with h | h | h
          · simp at h
          · exact absurd h (runTraining_no_writes cfg env.scriptExists
              env.trainOutcome _ doc)
          · exact iterTail_inv cfg env.claudeOutcomes env.reportDuring env.reportAtEnd
              env.saveTime _ _ doc h
  · intro env cfg st0 doc hread hcomp
    simp only [runMethod, hread, hcomp, Bool.false_eq_true, if_false]

/-- Witness for C4: a concrete state round-trips through the status
document, a concrete pass increments the counter from 3 to 4, and a
concrete stored status resumes at the stored iteration. -/
theorem iteration_monotone_roundtrip_spot :
    getSessionId (.ok (saveStatusDoc
        { iteration := 5, sessionId := some "s", gpuInfo := none, statusFile := .absent }
        false 0)) = (some "s", [])
    ∧ (runIteration
        { reportAtCheck := true, scriptExists := fun _ => false,
          trainOutcome := .exited 0, resourceCheck := .noGpu,
          claudeOutcomes := fun _ => .timedOut, reportDuring := false,
          reportAtEnd := false, saveTime := 0 } cfg0
        { iteration := 3, sessionId := none, gpuInfo := none,
          statusFile := .absent }).1.iteration = 4
    ∧ runMethod
        { steadyStateCrashEnv with
          statusRead := .ok (saveStatusDoc
            { iteration := 5, sessionId := some "s", gpuInfo := none, statusFile := .absent }
            false 0) } cfg0 st0 =
      runAfterLoad
        { steadyStateCrashEnv with
          statusRead := .ok (saveStatusDoc
            { iteration := 5, sessionId := some "s", gpuInfo := none, statusFile := .absent }
            false 0) } cfg0 { st0 with iteration := 5 }
        [.logBoth .startingExperiment] := by
  refine ⟨?_, ?_, ?_⟩
  · exact (iteration_monotone_roundtrip.1
      { iteration := 5, sessionId := some "s", gpuInfo := none, statusFile := .absent }
      false 0).2.2.1
  · have h := (iteration_monotone_roundtrip.2.1
      { reportAtCheck := true, scriptExists := fun _ => false,
        trainOutcome := .exited 0, resourceCheck := .noGpu,
        claudeOutcomes := fun _ => .timedOut, reportDuring := false,
        reportAtEnd := false, saveTime := 0 } cfg0
      { iteration := 3, sessionId := none, gpuInfo := none,
        statusFile := .absent }).1
    norm_num at h
    exact h
  · exact iteration_monotone_roundtrip.2.2
      { steadyStateCrashEnv with
        statusRead := .ok (saveStatusDoc
          { iteration := 5, sessionId := some "s", gpuInfo := none, statusFile := .absent }
          false 0) } cfg0 st0
      (saveStatusDoc
        { iteration := 5, sessionId := some "s", gpuInfo := none, statusFile := .absent }
        false 0) rfl rfl

/-- Helper: a pass exits the process only with code 1 and only out of a
failing resource check. -/
theorem runIteration_exit_code (env : IterEnv) (cfg : Config) (st : RunnerState)
    (c : Nat) (h : (runIteration env cfg st).2.2 = .exit c) :
    c = 1 ∧ resourceFails env.resourceCheck = true := by
  by_cases hrep : env.reportAtCheck
  · simp [runIteration, hrep] at h
  · have hrep' : env.reportAtCheck = false := by simpa using hrep
    by_cases hone : st.iteration + 1 = 1
    · by_cases hgpu : st.gpuInfo.isNone
      · cases hrc : env.resourceCheck with
        | gpu name mem => simp [runIteration, hrep', hone, hgpu, hrc, checkResources] at h
        | noGpu => simp [runIteration, hrep', hone, hgpu, hrc, checkResources] at h
        | importError =>
          simp [runIteration, hrep', hone, hgpu, hrc, checkResources] at h
          exact ⟨by omega, by simp [resourceFails]⟩
        | otherError m =>
          simp [runIteration, hrep', hone, hgpu, hrc, checkResources] at h
          exact ⟨by omega, by simp [resourceFails]⟩
      · simp [runIteration, hrep', hone, hgpu] at h
    · simp [runIteration, hrep', hone] at h

/-- Helper: the loop halts the process only with code 1 and only because
some pass's resource check failed. -/
theorem runLoop_halt (env : Int → IterEnv) (cfg : Config) :
    ∀ (fuel : Nat) (st : RunnerState) (c : Nat),
      (runLoop env cfg fuel st).2.2 = some c →
      c = 1 ∧ ∃ i, resourceFails (env i).resourceCheck = true := by
  intro fuel
  induction fuel with
  | zero =>
    intro st c h
    simp [runLoop] at h
  | succ n ih =>
    intro st c h
    rw [runLoop] at h
    by_cases hlt : st.iteration < cfg.maxIterations
    · rw [if_pos hlt] at h
      rcases hri : runIteration (env (st.iteration + 1)) cfg st with ⟨st', ev, outc⟩
      rw [hri] at h
      cases outc with
      | exit c2 =>
        simp only [Option.some.injEq] at h
        obtain ⟨h1, h2⟩ := runIteration_exit_code (env (st.iteration + 1)) cfg st c2
          (by rw [hri])
        exact ⟨by omega, ⟨st.iteration + 1, h2⟩⟩
      | stop => simp at h
      | cont =>
        simp only [] at h
        exact ih st' c h
    · rw [if_neg hlt] at h
      simp at h

/-- Helper: the loop-then-summary tail halts only via the loop. -/
theorem loopAndFinish_halt (env : RunEnv) (cfg : Config) (st : RunnerState)
    (evAcc : List Event) (c : Nat)
    (h : (loopAndFinish env cfg st evAcc).2.2 = some c) :
    c = 1 ∧ ∃ i, resourceFails (env.iterEnv i).resourceCheck = true := by
  unfold loopAndFinish at h
  rcases hr : runLoop env.iterEnv cfg (cfg.maxIterations - st.iteration).toNat st
    with ⟨st1, ev1, halt1⟩
  cases halt1 with
  | some c2 =>
    simp only [hr, Option.some.injEq] at h
    obtain ⟨h1, h2⟩ := runLoop_halt env.iterEnv cfg _ st c2 (by rw [hr])
    exact ⟨by omega, h2⟩
  | none => simp [hr] at h

/-- Helper: after status loading, the run halts only out of a failing
resource check (during planning or inside the loop). -/
theorem runAfterLoad_halt (env : RunEnv) (cfg : Config) (st : RunnerState)
    (ev0 : List Event) (c : Nat)
    (h : (runAfterLoad env cfg st ev0).2.2 = some c) :
    c = 1 ∧ (resourceFails env.planResource = true
      ∨ ∃ i, resourceFails (env.iterEnv i).resourceCheck = true) := by
  unfold runAfterLoad at h
  by_cases hplan : env.planExists
  · rw [if_pos hplan] at h
    obtain ⟨h1, h2⟩ := loopAndFinish_halt env cfg st ev0 c h
    exact ⟨h1, Or.inr h2⟩
  · rw [if_neg hplan] at h
    rcases hcr : checkResources env.planResource st with ⟨ost, evR⟩
    rw [hcr] at h
    cases ost with
    | none =>
      simp only [Option.some.injEq] at h
      refine ⟨by omega, Or.inl ?_⟩
      cases hrc : env.planResource <;> rw [hrc] at hcr <;>
        simp [checkResources] at hcr <;> simp [resourceFails]
    | some st1 =>
      simp only [] at h
      by_cases hok : (runClaude cfg env.planClaude env.planReport env.planSaveTime st1
          (PromptKind.plan (st1.gpuInfo.getD "GPU status unknown") cfg.allowUv cfg.allowPip)
          0).2.2
      · rw [if_pos hok] at h
        obtain ⟨h1, h2⟩ := loopAndFinish_halt env cfg _ _ c h
        exact ⟨h1, Or.inr h2⟩
      · rw [if_neg hok] at h
        simp at h

/-- Helper: `run` halts only on an unreadable status document or a failing
resource check. -/
theorem runMethod_halt (env : RunEnv) (cfg : Config) (st0 : RunnerState) (c : Nat)
    (h : (runMethod env cfg st0).2.2 = some c) :
    c = 1 ∧ (env.statusRead = .malformed
      ∨ resourceFails env.planResource = true
      ∨ ∃ i, resourceFails (env.iterEnv i).resourceCheck = true) := by
  unfold runMethod at h
  cases hsr : env.statusRead with
  | malformed =>
    rw [hsr] at h
    simp only [Option.some.injEq] at h
    exact ⟨by omega, Or.inl rfl⟩
  | absent =>
    rw [hsr] at h
    obtain ⟨h1, h2⟩ := runAfterLoad_halt env cfg st0 _ c h
    exact ⟨h1, Or.inr h2⟩
  | ok doc =>
    rw [hsr] at h
    by_cases hc : doc.complete.getD false
    · simp [hc] at h
    · simp only [if_neg hc] at h
      obtain ⟨h1, h2⟩ := runAfterLoad_halt env cfg _ _ c h
      exact ⟨h1, Or.inr h2⟩

/-- Counterexample to C7: with the assistant available and the idea
document present (so neither startup condition holds), a failing resource
probe inside the first loop pass still halts the whole process with exit
code 1. -/
theorem startup_only_halt_counterexample :
    ¬ (∀ (ca ie : Bool) (env : RunEnv) (cfg : Config) (c : Nat),
        (mainProgram ca ie env cfg).2 = some c → c ≠ 0 →
        ca = false ∨ ie = false) := by
  intro hclaim
  rcases hclaim true true steadyStateCrashEnv cfg0 1 rfl (by decide) with h | h <;>
    simp at h

/-- C7 (amended): the process halts with a non-zero exit only with code 1
and only when the assistant CLI is missing, the idea document is missing,
the stored status document is unreadable at the start of `run`, or the
resource check fails (PyTorch missing or probe error) during planning or
during the first loop pass; every other steady-state failure is absorbed
and the loop advances. -/
theorem halt_conditions (ca ie : Bool) (env : RunEnv) (cfg : Config) (c : Nat)
    (h : (mainProgram ca ie env cfg).2 = some c) :
    c = 1 ∧ (ca = false ∨ ie = false ∨ env.statusRead = FileRead.malformed
      ∨ resourceFails env.planResource = true
      ∨ ∃ i, resourceFails (env.iterEnv i).resourceCheck = true) := by
  unfold mainProgram at h
  cases ca with
  | false =>
    simp only [Bool.false_eq_true, if_false, Option.some.injEq] at h
    exact ⟨by omega, Or.inl rfl⟩
  | true =>
    rw [if_pos rfl] at h
    cases ie with
    | false =>
      simp only [validateSetup, Bool.false_eq_true, if_false, Option.some.injEq] at h
      exact ⟨by omega, Or.inr (Or.inl rfl)⟩
    | true =>
      simp only [validateSetup, if_pos] at h
      obtain ⟨h1, h2⟩ := runMethod_halt env cfg _ c h
      exact ⟨h1, Or.inr (Or.inr h2)⟩

/-- Witness for the amended C7: the concrete steady-state crash
environment halts with code 1, and the amended characterization applies to
it. -/
theorem halt_conditions_spot :
    (mainProgram true true steadyStateCrashEnv cfg0).2 = some 1
    ∧ 1 = 1
    ∧ (true = false ∨ true = false ∨ steadyStateCrashEnv.statusRead = FileRead.malformed
        ∨ resourceFails steadyStateCrashEnv.planResource = true
        ∨ ∃ i, resourceFails (steadyStateCrashEnv.iterEnv i).resourceCheck = true) := by
  have h := halt_conditions true true steadyStateCrashEnv cfg0 1 rfl
  exact ⟨rfl, h.1 ▸ rfl, h.2⟩

/-- Counterexample to C8: error paths that are silent or print-only.  The
status-document read helper swallows a parse failure producing no console
output and no log record at all; the write helper does likewise; and
startup validation of a missing idea document prints without writing any
rolling-log record. -/
theorem no_silent_failure_counterexample :
    (getSessionId (FileRead.malformed : FileRead StatusDoc)).2 = []
    ∧ (saveSessionId (FileRead.malformed : FileRead StatusDoc) "sid").2.filter isConsole = []
    ∧ (validateSetup cfg0 false).1.filter isLogRecord = [] :=
  ⟨rfl, rfl, rfl⟩

/-- C8 (amended): failures reported through the `log` helper are both
printed and appended with a timestamp to the rolling log, but the
status-document read and write helpers swallow their failures with no
console or log output at all, and startup validation failures are printed
to standard output only, with no rolling-log record. -/
theorem logging_policy_amended :
    (∀ ts msg : String, logMethod ts msg =
      [.printOut ("[" ++ ts ++ "] " ++ msg),
       .appendFile "logs/runner.log" ("[" ++ ts ++ "] " ++ msg ++ "\n")])
    ∧ (∀ r : FileRead StatusDoc, (getSessionId r).2 = [])
    ∧ (∀ (r : FileRead StatusDoc) (sid : String),
        (saveSessionId r sid).2.filter isConsole = [])
    ∧ (∀ cfg : Config, (validateSetup cfg false).1.filter isLogRecord = []
        ∧ (validateSetup cfg false).1 ≠ []) := by
  refine ⟨fun ts msg => rfl, ?_, ?_, ?_⟩
  · intro r
    cases r <;> rfl
  · intro r sid
    cases r <;> rfl
  · intro cfg
    exact ⟨rfl, by simp [validateSetup]⟩

end ExperimentModel
